import Mathlib

/-!
Shallow embedding of the conversational code-generation workflow of the
website-builder repository (src/agent.py, src/llm_client.py, src/embeddings.py).

Modelling conventions:
* A LangGraph state channel that has never been written is `none`; a channel
  written with Python `None` is `some none`; a channel holding a string `s` is
  `some (some s)`.  `pyGet v` models `state.get(k)` and `pyGetD v d` models
  `state.get(k, d)`.
* Python truthiness of an `Optional[str]` is `truthy`; rendering of a Python
  value inside an f-string is `fstr` (Python renders `None` as `"None"`).
* The text-generation provider and the similarity store are external
  collaborators; they are passed to the embedded nodes as explicit oracle
  functions (`Gen`, `RetrQ`).
* The filesystem is modelled as a record of existing directories and an
  association list from file paths to contents; `os.path.join(a, b)` for the
  plain relative paths used by the program is `a ++ "/" ++ b`.
* Python `str.strip` / `str.replace` are re-implemented over `List Char`
  (`pyStrip`, `pyReplace`) with Python's left-to-right non-overlapping
  replacement semantics; `pyStrip` strips the ASCII whitespace characters.
-/

inductive Role where
  | user
  | assistant
deriving DecidableEq, Repr

structure Message where
  role : Role
  content : String
deriving DecidableEq, Repr

/-- Embedding of `AgentState` (src/agent.py lines 70-82).  `messages` is the
`add_messages` channel (append-only), the remaining fields are last-value
channels; see the channel convention in the header comment. -/
structure AgentState where
  messages : List Message := []
  thread_id : String := ""
  current_project_path : Option (Option String) := none
  generated_html : Option (Option String) := none
  generated_css : Option (Option String) := none
  generated_js : Option (Option String) := none
  project_name : Option (Option String) := none
  retrieved_context : Option (Option String) := none
deriving DecidableEq, Repr

/-- Python `state.get(k)`: an absent key yields `None`. -/
def pyGet (v : Option (Option String)) : Option String :=
  v.getD none

/-- Python `state.get(k, d)` with a string default: an absent key yields the
default, a present key yields the stored value (which may be `None`). -/
def pyGetD (v : Option (Option String)) (d : String) : Option String :=
  match v with
  | none => some d
  | some x => x

/-- Python truthiness of an `Optional[str]` value: `None` and `""` are falsy. -/
def truthy (v : Option String) : Bool :=
  match v with
  | none => false
  | some s => s != ""

/-- Rendering of a Python `Optional[str]` inside an f-string: `None` prints as
the four characters `None`. -/
def fstr (v : Option String) : String :=
  match v with
  | none => "None"
  | some s => s

/-- Rendering of `state.get(k, "")` inside an f-string (composition of
`pyGetD` with default `""` and `fstr`). -/
def getStr (v : Option (Option String)) : String :=
  fstr (pyGetD v "")

/-- Python `x or d` for `x : Optional[str]` and a string default `d` (used in
`assemble_and_create_node`): falsy values are replaced by `d`. -/
def pyOr (v : Option String) (d : String) : String :=
  match v with
  | none => d
  | some s => if s = "" then d else s

/-- Python's ASCII whitespace characters as stripped by `str.strip()` (the
program only ever strips ASCII model output). -/
def isPySpace (c : Char) : Bool :=
  c == ' ' || c == '\t' || c == '\n' || c == '\r' || c == '\x0b' || c == '\x0c'

/-- Strip leading and trailing whitespace from a character list. -/
def stripChars (s : List Char) : List Char :=
  ((s.dropWhile isPySpace).reverse.dropWhile isPySpace).reverse

/-- Embedding of Python `str.strip()`. -/
def pyStrip (s : String) : String :=
  ⟨stripChars s.data⟩

/-- Does `pat` occur as a prefix of `s`? -/
def isPrefixChars : List Char → List Char → Bool
  | [], _ => true
  | _ :: _, [] => false
  | p :: ps, c :: cs => p == c && isPrefixChars ps cs

/-- Worker for `pyReplace`: scan left to right, replacing non-overlapping
occurrences of `pat` by `repl`.  `fuel` only forces structural termination; it
is always called with `fuel = s.length`, which the scan never exhausts because
every step consumes at least one character.  An empty pattern never occurs in
the program and is treated as matching nowhere. -/
def replaceAux (pat repl : List Char) : Nat → List Char → List Char
  | _, [] => []
  | 0, rest => rest
  | fuel + 1, c :: cs =>
    if !pat.isEmpty && isPrefixChars pat (c :: cs) then
      repl ++ replaceAux pat repl fuel (List.drop (pat.length - 1) cs)
    else
      c :: replaceAux pat repl fuel cs

/-- Embedding of Python `s.replace(pat, repl)`: replaces every occurrence,
scanning left to right without overlap. -/
def pyReplace (s pat repl : String) : String :=
  ⟨replaceAux pat.data repl.data s.data.length s.data⟩

/-- Classified generation failures of `LLMClient.generate`
(src/llm_client.py): `modelNotLoaded` embeds `ModelNotLoadedError`,
`generationFailed` embeds the generic wrapping `Exception`. -/
inductive GenErr where
  | modelNotLoaded
  | generationFailed (cause : String)
deriving DecidableEq, Repr

/-- The generation collaborator as seen by the agent nodes: a prompt either
yields text or a classified failure (the behaviour of `self.llm_client.generate`
for this run). -/
abbrev Gen := String → Except GenErr String

/-- The retrieval collaborator as seen by `retrieve_similar`: a query string
and an `n_results` bound yield either the chroma `results['documents']`
row-list or an internal error. -/
abbrev RetrQ := String → Nat → Except String (List (List String))

/-- The response cleanup performed by `_generate_code` (src/agent.py line 239):
`code.strip().replace("```html", "").replace("```css", "")
.replace("```javascript", "").replace("```", "").strip()`. -/
def cleanGenerated (code : String) : String :=
  pyStrip (pyReplace (pyReplace (pyReplace (pyReplace (pyStrip code)
    "```html" "") "```css" "") "```javascript" "") "```" "")

/-- Embedding of `_generate_code` (src/agent.py lines 234-239): call the
generation client on the prompt and clean the returned text; a raised
generation error propagates. -/
def generateCode (gen : Gen) (prompt : String) : Except GenErr String :=
  (gen prompt).map cleanGenerated

/-- The filesystem as the program observes it: the set of existing directories
(`os.path.isdir`, `os.makedirs`) and the files with their contents
(`os.path.exists`, `open`). -/
structure FS where
  dirs : List String := []
  files : List (String × String) := []
deriving DecidableEq, Repr

/-- Embedding of the local `read_file_content` helper of
`load_existing_project_node` (src/agent.py lines 294-299): read the file if it
exists, otherwise return the per-file placeholder marker. -/
def read_file_content (fs : FS) (project_path file_name : String) : String :=
  match fs.files.lookup (project_path ++ "/" ++ file_name) with
  | some c => c
  | none => "// " ++ file_name ++ " not found"

/-- Embedding of `os.path.basename` for the slash-separated relative paths the
program uses. -/
def basename (p : String) : String :=
  (p.splitOn "/").getLastD ""

/-- Write (create or overwrite) one file. -/
def writeFile (files : List (String × String)) (path content : String) :
    List (String × String) :=
  (path, content) :: files.filter (fun e => e.1 != path)

/-- Write a list of `(file_name, content)` pairs under a directory, in order
(the `for filename, content in final_code.items()` loop). -/
def writeFiles (files : List (String × String)) (dir : String)
    (cs : List (String × String)) : List (String × String) :=
  cs.foldl (fun acc fc => writeFile acc (dir ++ "/" ++ fc.1) fc.2) files

/-- The prompt of `generate_html_from_scratch_node` (src/agent.py lines
244-246). -/
def generate_html_prompt (user_message : String) : String :=
  "You are an expert web developer. A user wants a website: \"" ++ user_message
    ++ "\".\nGenerate a complete `index.html` file from scratch that fulfills this request.\nReturn ONLY the raw HTML code. Do not include markdown formatting."

/-- The prompt of `generate_css_from_scratch_node` (src/agent.py lines
254-260). -/
def generate_css_prompt (user_message generated_html : String) : String :=
  "You are an expert web developer creating a website for a user who wants: \""
    ++ user_message
    ++ "\".\nYou have already generated the HTML. Now, write a complete `styles.css` file to style it appropriately.\n**Generated HTML:**\n```html\n"
    ++ generated_html
    ++ "\n```\nReturn ONLY the raw CSS code. Do not include markdown formatting."

/-- The prompt of `generate_js_from_scratch_node` (src/agent.py lines
269-279). -/
def generate_js_prompt (user_message generated_html generated_css : String) :
    String :=
  "You are an expert web developer creating a website for a user who wants: \""
    ++ user_message
    ++ "\".\nYou have already generated the HTML and CSS. Now, create an `app.js` file to make it interactive.\n**Generated HTML:**\n```html\n"
    ++ generated_html
    ++ "\n```\n**Generated CSS:**\n```css\n"
    ++ generated_css
    ++ "\n```\nReturn ONLY the raw JavaScript code. Do not include markdown formatting."

/-- The prompt of `edit_html_node` (src/agent.py lines 315-326). -/
def edit_html_prompt (user_message existing_html : String) : String :=
  "You are an expert web developer. A user wants to modify a webpage.\n**User's instruction:** \""
    ++ user_message
    ++ "\"\n\nYour goal is to edit the following HTML to incorporate the user's request. Modify the code as needed.\n\n**Existing HTML (to be modified):**\n```html\n"
    ++ existing_html
    ++ "\n```\n\nReturn ONLY the new, full, raw HTML code. Do not include markdown formatting.\n"

/-- The prompt of `edit_css_node` (src/agent.py lines 338-360). -/
def edit_css_prompt
    (user_message retrieved_context current_html existing_css : String) :
    String :=
  "You are an expert web developer modifying a website.\n**User's instruction:** \""
    ++ user_message
    ++ "\"\n\n**Relevant code snippets from the project (for context):**\n```\n"
    ++ retrieved_context
    ++ "\n```\n\nYour goal is to edit the following CSS to incorporate the user's request.\nThe CSS should style the provided HTML.\n\n**Current HTML:**\n```html\n"
    ++ current_html
    ++ "\n```\n\n**Existing CSS (to be modified):**\n```css\n"
    ++ existing_css
    ++ "\n```\n\nReturn ONLY the new, full, raw CSS code. Do not include markdown formatting.\n"

/-- The prompt of `edit_js_node` (src/agent.py lines 373-399). -/
def edit_js_prompt
    (user_message retrieved_context current_html current_css existing_js :
      String) : String :=
  "You are an expert web developer modifying a website.\n**User's instruction:** \""
    ++ user_message
    ++ "\"\n\n**Relevant code snippets from the project (for context):**\n```\n"
    ++ retrieved_context
    ++ "\n```\n\nYour goal is to edit the following JavaScript to incorporate the user's request.\nThe script should work with the provided HTML and CSS.\n\n**Current HTML:**\n```html\n"
    ++ current_html
    ++ "\n```\n**Current CSS:**\n```css\n"
    ++ current_css
    ++ "\n```\n\n**Existing JavaScript (to be modified):**\n```javascript\n"
    ++ existing_js
    ++ "\n```\n\nReturn ONLY the new, full, raw JavaScript code. Do not include markdown formatting.\n"

/-- Python `state["messages"][-1].content`.  Inside a run the messages list is
never empty (`ainvoke` always appends the new `HumanMessage` first), so the
default branch is unreachable on the paths the workflow takes. -/
def lastMessageContent (state : AgentState) : String :=
  match state.messages.getLast? with
  | some m => m.content
  | none => ""

/-- Embedding of `router_node` (src/agent.py lines 225-232): it only logs and
returns an empty update, leaving the state unchanged. -/
def router_node (state : AgentState) : AgentState :=
  state

/-- The conditional-edge lambda of `build_graph` (src/agent.py lines 143-147):
`"load_existing_project" if state.get("current_project_path") else
"generate_html_from_scratch"`. -/
def route (state : AgentState) : String :=
  if truthy (pyGet state.current_project_path) then "load_existing_project"
  else "generate_html_from_scratch"

/-- Embedding of `EmbeddingManager.retrieve_similar` (src/embeddings.py lines
57-67): on an internal query error return `[]`; otherwise return
`results['documents'][0]` if the documents row-list is non-empty (truthy), else
`[]`. -/
def EmbeddingManager.retrieve_similar (queryResult : Except String (List (List String))) :
    List String :=
  match queryResult with
  | .error _ => []
  | .ok [] => []
  | .ok (d :: _) => d

/-- Embedding of `retrieve_context_node` (src/agent.py lines 210-223): if the
embedding manager is absent, set `retrieved_context` to `""`; otherwise query
it with the latest user message and `n_results = 3` and join the returned
snippets with newlines. -/
def retrieve_context_node (managerQuery : Option RetrQ) (state : AgentState) :
    AgentState :=
  match managerQuery with
  | none => { state with retrieved_context := some (some "") }
  | some q =>
    let user_message := lastMessageContent state
    let docs := EmbeddingManager.retrieve_similar (q user_message 3)
    { state with retrieved_context := some (some (String.intercalate "\n" docs)) }

/-- Embedding of `generate_html_from_scratch_node` (src/agent.py lines
241-248). -/
def generate_html_from_scratch_node (gen : Gen) (state : AgentState) :
    Except GenErr AgentState :=
  let user_message := lastMessageContent state
  (generateCode gen (generate_html_prompt user_message)).map
    (fun generated_html => { state with generated_html := some (some generated_html) })

/-- Embedding of `generate_css_from_scratch_node` (src/agent.py lines
250-262). -/
def generate_css_from_scratch_node (gen : Gen) (state : AgentState) :
    Except GenErr AgentState :=
  let user_message := lastMessageContent state
  let generated_html := getStr state.generated_html
  (generateCode gen (generate_css_prompt user_message generated_html)).map
    (fun generated_css => { state with generated_css := some (some generated_css) })

/-- Embedding of `generate_js_from_scratch_node` (src/agent.py lines
264-281). -/
def generate_js_from_scratch_node (gen : Gen) (state : AgentState) :
    Except GenErr AgentState :=
  let user_message := lastMessageContent state
  let generated_html := getStr state.generated_html
  let generated_css := getStr state.generated_css
  (generateCode gen (generate_js_prompt user_message generated_html generated_css)).map
    (fun generated_js => { state with generated_js := some (some generated_js) })

/-- Embedding of `load_existing_project_node` (src/agent.py lines 283-308):
if `current_project_path` is falsy or not an existing directory, reset the
path and all three drafts to `None` (and still return normally); otherwise
populate `project_name` and the three drafts from the project files. -/
def load_existing_project_node (fs : FS) (state : AgentState) : AgentState :=
  match pyGet state.current_project_path with
  | none =>
    { state with current_project_path := some none, generated_html := some none,
                 generated_css := some none, generated_js := some none }
  | some project_path =>
    if project_path = "" || !fs.dirs.contains project_path then
      { state with current_project_path := some none, generated_html := some none,
                   generated_css := some none, generated_js := some none }
    else
      { state with
          project_name := some (some (basename project_path)),
          generated_html := some (some (read_file_content fs project_path "index.html")),
          generated_css := some (some (read_file_content fs project_path "styles.css")),
          generated_js := some (some (read_file_content fs project_path "app.js")) }

/-- Embedding of `edit_html_node` (src/agent.py lines 310-328). -/
def edit_html_node (gen : Gen) (state : AgentState) : Except GenErr AgentState :=
  let user_message := lastMessageContent state
  let existing_html := getStr state.generated_html
  (generateCode gen (edit_html_prompt user_message existing_html)).map
    (fun edited_html => { state with generated_html := some (some edited_html) })

/-- Embedding of `edit_css_node` (src/agent.py lines 330-362). -/
def edit_css_node (gen : Gen) (state : AgentState) : Except GenErr AgentState :=
  let user_message := lastMessageContent state
  let existing_css := getStr state.generated_css
  let current_html := getStr state.generated_html
  let retrieved_context := getStr state.retrieved_context
  (generateCode gen
      (edit_css_prompt user_message retrieved_context current_html existing_css)).map
    (fun edited_css => { state with generated_css := some (some edited_css) })

/-- Embedding of `edit_js_node` (src/agent.py lines 365-401). -/
def edit_js_node (gen : Gen) (state : AgentState) : Except GenErr AgentState :=
  let user_message := lastMessageContent state
  let existing_js := getStr state.generated_js
  let current_html := getStr state.generated_html
  let current_css := getStr state.generated_css
  let retrieved_context := getStr state.retrieved_context
  (generateCode gen
      (edit_js_prompt user_message retrieved_context current_html current_css
        existing_js)).map
    (fun edited_js => { state with generated_js := some (some edited_js) })

/-- The `final_code` map built by `assemble_and_create_node` (src/agent.py
lines 407-411), as an ordered list of `(file_name, content)` pairs. -/
def final_code (state : AgentState) : List (String × String) :=
  [("index.html", pyOr (pyGet state.generated_html) "<!-- HTML generation failed -->"),
   ("styles.css", pyOr (pyGet state.generated_css) "/* CSS generation failed */"),
   ("app.js", pyOr (pyGet state.generated_js) "// JavaScript generation failed")]

/-- Embedding of `assemble_and_create_node` (src/agent.py lines 403-435):
write the three files under the fixed canonical project path (creating the
directory), append the assistant turn chosen by the truthiness of
`current_project_path` in the state at this point, and set the path and
project name to the fixed canonical values. -/
def assemble_and_create_node (fs : FS) (state : AgentState) : AgentState × FS :=
  let project_name := "current_project"
  let project_path := "generated_apps" ++ "/" ++ project_name
  let fs' : FS :=
    { dirs := if fs.dirs.contains project_path then fs.dirs else project_path :: fs.dirs,
      files := writeFiles fs.files project_path (final_code state) }
  let response_msg :=
    if truthy (pyGet state.current_project_path) then
      "I have applied the updates to the project."
    else
      "I've created a new project. You can see it in the preview."
  ({ state with
      messages := state.messages ++ [{ role := Role.assistant, content := response_msg }],
      current_project_path := some (some project_path),
      project_name := some (some project_name) }, fs')

/-- The from-scratch path of the graph (src/agent.py lines 150-152, 162):
`generate_html_from_scratch → generate_css_from_scratch →
generate_js_from_scratch → assemble_and_create → END`; a raised generation
error aborts the run. -/
def runCreatePath (gen : Gen) (fs : FS) (state : AgentState) :
    Except GenErr (AgentState × FS) :=
  match generate_html_from_scratch_node gen state with
  | .error e => .error e
  | .ok st1 =>
    match generate_css_from_scratch_node gen st1 with
    | .error e => .error e
    | .ok st2 =>
      match generate_js_from_scratch_node gen st2 with
      | .error e => .error e
      | .ok st3 => .ok (assemble_and_create_node fs st3)

/-- The editing path of the graph (src/agent.py lines 155-159, 162):
`load_existing_project → retrieve_context → edit_html → edit_css → edit_js →
assemble_and_create → END`; a raised generation error aborts the run. -/
def runEditPath (gen : Gen) (fs : FS) (mq : Option RetrQ) (state : AgentState) :
    Except GenErr (AgentState × FS) :=
  let st1 := load_existing_project_node fs state
  let st2 := retrieve_context_node mq st1
  match edit_html_node gen st2 with
  | .error e => .error e
  | .ok st3 =>
    match edit_css_node gen st3 with
    | .error e => .error e
    | .ok st4 =>
      match edit_js_node gen st4 with
      | .error e => .error e
      | .ok st5 => .ok (assemble_and_create_node fs st5)

/-- One full run of the compiled graph: the entry point is `router`
(src/agent.py line 140) and the conditional edge `route` selects the path
(src/agent.py lines 143-147). -/
def runWorkflow (gen : Gen) (fs : FS) (mq : Option RetrQ) (state : AgentState) :
    Except GenErr (AgentState × FS) :=
  let state := router_node state
  if route state = "load_existing_project" then runEditPath gen fs mq state
  else runCreatePath gen fs state

/-- Embedding of `process_message` (src/agent.py lines 187-208) up to the
graph invocation: the checkpointer restores the session's prior state (or a
fresh one), the new user message is appended to the `messages` channel, and
the graph is run. -/
def process_message (gen : Gen) (fs : FS) (mq : Option RetrQ)
    (checkpoint : Option AgentState) (message : String) (session_id : String) :
    Except GenErr (AgentState × FS) :=
  let prior : AgentState :=
    match checkpoint with
    | some st => st
    | none => {}
  let st0 : AgentState :=
    { prior with
        messages := prior.messages ++ [{ role := Role.user, content := message }],
        thread_id := session_id }
  runWorkflow gen fs mq st0

/-- The response payload of `process_message` (src/agent.py lines 201-208). -/
structure ProcessResponse where
  response : String
  project_name : Option String
  project_path : Option String
deriving DecidableEq, Repr

/-- Extraction of the frontend response from the final state (src/agent.py
lines 201-207). -/
def extract_response (final : AgentState) : ProcessResponse :=
  { response :=
      match final.messages.getLast? with
      | some m => if m.role = Role.assistant then m.content else "I'm ready."
      | none => "I'm ready.",
    project_name := pyGet final.project_name,
    project_path := pyGet final.current_project_path }

/-- The provider model handle of `LLMClient` (`genai.GenerativeModel`,
src/llm_client.py lines 24-27); only its presence matters to the client. -/
structure GeminiModel where
  system_instruction : String := ""
deriving DecidableEq, Repr

/-- Embedding of `LLMClient.initialize` (src/llm_client.py lines 13-39): any
exception (missing/empty `GOOGLE_API_KEY`, or a failure while configuring or
constructing the model) is caught and leaves `self.model = None`; on success
the constructed model is stored.  `apiKey` is `os.getenv("GOOGLE_API_KEY")`
and `configured` is the outcome of the `genai` calls. -/
def LLMClient.initializeModel (apiKey : Option String)
    (configured : Except String GeminiModel) : Option GeminiModel :=
  match apiKey with
  | none => none
  | some k =>
    if k = "" then none
    else
      match configured with
      | .ok m => some m
      | .error _ => none

/-- Embedding of `LLMClient.generate` (src/llm_client.py lines 41-55): if no
model is loaded, raise `ModelNotLoadedError` (the provider is never called);
otherwise call the provider, strip the returned text, and wrap any provider
exception in a generic `Failed to generate response` error.  `providerResult`
is the outcome of `model.generate_content_async(prompt)` followed by
`response.text`. -/
def LLMClient.generate (model : Option GeminiModel)
    (providerResult : Except String String) : Except GenErr String :=
  match model with
  | none => .error .modelNotLoaded
  | some _ =>
    match providerResult with
    | .ok generated_text => .ok (pyStrip generated_text)
    | .error e => .error (.generationFailed ("Failed to generate response: " ++ e))

/-- Embedding of `LLMClient.is_loaded` (src/llm_client.py lines 57-59). -/
def LLMClient.is_loaded (model : Option GeminiModel) : Bool :=
  model.isSome

/-- The compiled stage graph handle as data: node names, fixed edges, and the
entry point (the conditional edge is the separate `route` function). -/
structure CompiledGraph where
  nodes : List String
  edges : List (String × String)
  entry : String
deriving DecidableEq, Repr

/-- The nodes added by `build_graph` (src/agent.py lines 120-137). -/
def workflowNodes : List String :=
  ["router", "generate_html_from_scratch", "generate_css_from_scratch",
   "generate_js_from_scratch", "retrieve_context", "load_existing_project",
   "edit_html", "edit_css", "edit_js", "assemble_and_create"]

/-- The unconditional edges added by `build_graph` (src/agent.py lines
150-162). -/
def workflowEdges : List (String × String) :=
  [("generate_html_from_scratch", "generate_css_from_scratch"),
   ("generate_css_from_scratch", "generate_js_from_scratch"),
   ("generate_js_from_scratch", "assemble_and_create"),
   ("load_existing_project", "retrieve_context"),
   ("retrieve_context", "edit_html"),
   ("edit_html", "edit_css"),
   ("edit_css", "edit_js"),
   ("edit_js", "assemble_and_create"),
   ("assemble_and_create", "END")]

/-- The graph value produced by `workflow.compile` in `build_graph`. -/
def compiledWorkflow : CompiledGraph :=
  { nodes := workflowNodes, edges := workflowEdges, entry := "router" }

/-- Embedding of `build_graph` (src/agent.py lines 113-164) acting on the
`self.graph` handle: if a graph is already present, return immediately
(src/agent.py lines 115-116); otherwise build and store the fixed workflow. -/
def build_graph (graph : Option CompiledGraph) : Option CompiledGraph :=
  match graph with
  | some _ => graph
  | none => some compiledWorkflow

/-- Deletion of a session's rows from the checkpoint database
(`DELETE FROM threads WHERE thread_id = ?`, src/agent.py lines 177-179); the
database is an association list from `thread_id` to a persisted state
snapshot. -/
def deleteThread (db : List (String × AgentState)) (session_id : String) :
    List (String × AgentState) :=
  db.filter (fun row => row.1 != session_id)

/-- Embedding of `clear_session_state` (src/agent.py lines 166-185): if the
memory (checkpointer) is not initialized it logs and returns without touching
the database; otherwise it deletes the session's rows, and any exception
raised by the SQLite operations is caught and logged (`sqliteFails` abstracts
whether the connect/execute/commit sequence raises).  The `Except` result is
`.error` only for an uncaught exception, which never happens. -/
def clear_session_state (memoryInitialized : Bool) (sqliteFails : Bool)
    (db : List (String × AgentState)) (session_id : String) :
    Except String (List (String × AgentState)) :=
  if !memoryInitialized then .ok db
  else if sqliteFails then .ok db
  else .ok (deleteThread db session_id)

theorem lookup_filter_ne (l : List (String × String)) (p q : String)
    (h : q ≠ p) : (l.filter (fun e => e.1 != p)).lookup q = l.lookup q := by
  induction l with
  | nil => rfl
  | cons e tl ih =>
    by_cases hk : e.1 = p
    · have hq : (q == e.1) = false := by simp [hk, h]
      have hqp : (q == p) = false := by simp [h]
      simp [List.filter_cons, hk, List.lookup, hq, hqp, ih]
    · by_cases hqk : q = e.1
      · simp [List.filter_cons, hk, List.lookup, hqk]
      · have hq : (q == e.1) = false := by simp [hqk]
        simp [List.filter_cons, hk, List.lookup, hq, ih]

theorem writeFile_lookup_self (l : List (String × String)) (p c : String) :
    (writeFile l p c).lookup p = some c := by
  simp [writeFile, List.lookup]

theorem writeFile_lookup_ne (l : List (String × String)) (p c q : String)
    (h : q ≠ p) : (writeFile l p c).lookup q = l.lookup q := by
  have hq : (q == p) = false := by simp [h]
  simp [writeFile, List.lookup, hq, lookup_filter_ne l p q h]

theorem except_map_ok {ε α β : Type} {f : α → β} {x : Except ε α} {b : β}
    (h : x.map f = .ok b) : ∃ a, x = .ok a ∧ f a = b := by
  cases x with
  | error e => simp [Except.map] at h
  | ok a => exact ⟨a, rfl, by simpa [Except.map] using h⟩

theorem generate_html_node_eq (gen : Gen) (st : AgentState) (t : String)
    (h : gen (generate_html_prompt (lastMessageContent st)) = .ok t) :
    generate_html_from_scratch_node gen st =
      .ok { st with generated_html := some (some (cleanGenerated t)) } := by
  simp [generate_html_from_scratch_node, generateCode, h, Except.map]

theorem generate_css_node_eq (gen : Gen) (st : AgentState) (t : String)
    (h : gen (generate_css_prompt (lastMessageContent st)
        (getStr st.generated_html)) = .ok t) :
    generate_css_from_scratch_node gen st =
      .ok { st with generated_css := some (some (cleanGenerated t)) } := by
  simp [generate_css_from_scratch_node, generateCode, h, Except.map]

theorem generate_js_node_eq (gen : Gen) (st : AgentState) (t : String)
    (h : gen (generate_js_prompt (lastMessageContent st)
        (getStr st.generated_html) (getStr st.generated_css)) = .ok t) :
    generate_js_from_scratch_node gen st =
      .ok { st with generated_js := some (some (cleanGenerated t)) } := by
  simp [generate_js_from_scratch_node, generateCode, h, Except.map]

theorem edit_html_node_eq (gen : Gen) (st : AgentState) (t : String)
    (h : gen (edit_html_prompt (lastMessageContent st)
        (getStr st.generated_html)) = .ok t) :
    edit_html_node gen st =
      .ok { st with generated_html := some (some (cleanGenerated t)) } := by
  simp [edit_html_node, generateCode, h, Except.map]

theorem edit_css_node_eq (gen : Gen) (st : AgentState) (t : String)
    (h : gen (edit_css_prompt (lastMessageContent st)
        (getStr st.retrieved_context) (getStr st.generated_html)
        (getStr st.generated_css)) = .ok t) :
    edit_css_node gen st =
      .ok { st with generated_css := some (some (cleanGenerated t)) } := by
  simp [edit_css_node, generateCode, h, Except.map]

theorem edit_js_node_eq (gen : Gen) (st : AgentState) (t : String)
    (h : gen (edit_js_prompt (lastMessageContent st)
        (getStr st.retrieved_context) (getStr st.generated_html)
        (getStr st.generated_css) (getStr st.generated_js)) = .ok t) :
    edit_js_node gen st =
      .ok { st with generated_js := some (some (cleanGenerated t)) } := by
  simp [edit_js_node, generateCode, h, Except.map]

theorem generate_html_node_ok {gen : Gen} {st st' : AgentState}
    (h : generate_html_from_scratch_node gen st = .ok st') :
    ∃ t, st' = { st with generated_html := some (some t) } := by
  unfold generate_html_from_scratch_node at h
  obtain ⟨a, -, hfa⟩ := except_map_ok h
  exact ⟨a, hfa.symm⟩

theorem generate_css_node_ok {gen : Gen} {st st' : AgentState}
    (h : generate_css_from_scratch_node gen st = .ok st') :
    ∃ t, st' = { st with generated_css := some (some t) } := by
  unfold generate_css_from_scratch_node at h
  obtain ⟨a, -, hfa⟩ := except_map_ok h
  exact ⟨a, hfa.symm⟩

theorem generate_js_node_ok {gen : Gen} {st st' : AgentState}
    (h : generate_js_from_scratch_node gen st = .ok st') :
    ∃ t, st' = { st with generated_js := some (some t) } := by
  unfold generate_js_from_scratch_node at h
  obtain ⟨a, -, hfa⟩ := except_map_ok h
  exact ⟨a, hfa.symm⟩

theorem edit_html_node_ok {gen : Gen} {st st' : AgentState}
    (h : edit_html_node gen st = .ok st') :
    ∃ t, st' = { st with generated_html := some (some t) } := by
  unfold edit_html_node at h
  obtain ⟨a, -, hfa⟩ := except_map_ok h
  exact ⟨a, hfa.symm⟩

theorem edit_css_node_ok {gen : Gen} {st st' : AgentState}
    (h : edit_css_node gen st = .ok st') :
    ∃ t, st' = { st with generated_css := some (some t) } := by
  unfold edit_css_node at h
  obtain ⟨a, -, hfa⟩ := except_map_ok h
  exact ⟨a, hfa.symm⟩

theorem edit_js_node_ok {gen : Gen} {st st' : AgentState}
    (h : edit_js_node gen st = .ok st') :
    ∃ t, st' = { st with generated_js := some (some t) } := by
  unfold edit_js_node at h
  obtain ⟨a, -, hfa⟩ := except_map_ok h
  exact ⟨a, hfa.symm⟩

theorem retrieve_context_node_cpp (mq : Option RetrQ) (st : AgentState) :
    (retrieve_context_node mq st).current_project_path =
      st.current_project_path := by
  cases mq <;> rfl

theorem retrieve_context_node_drafts (mq : Option RetrQ) (st : AgentState) :
    (retrieve_context_node mq st).generated_html = st.generated_html ∧
    (retrieve_context_node mq st).generated_css = st.generated_css ∧
    (retrieve_context_node mq st).generated_js = st.generated_js := by
  cases mq <;> exact ⟨rfl, rfl, rfl⟩

theorem load_node_cpp_truthy (fs : FS) (st : AgentState) :
    truthy (pyGet (load_existing_project_node fs st).current_project_path) =
      (truthy (pyGet st.current_project_path) &&
        fs.dirs.contains (fstr (pyGet st.current_project_path))) := by
  unfold load_existing_project_node
  cases hc : pyGet st.current_project_path with
  | none => simp [hc, truthy, pyGet]
  | some p =>
    by_cases hp : p = ""
    · subst hp
      simp [hc, truthy, pyGet, fstr]
    · have hc' : st.current_project_path.getD none = some p := hc
      by_cases hd : p ∈ fs.dirs
      · simp [hc, hc', hp, hd, truthy, pyGet, fstr]
      · simp [hc, hc', hp, hd, truthy, pyGet, fstr]

theorem runWorkflow_ok_inv {gen : Gen} {fs : FS} {mq : Option RetrQ}
    {st : AgentState} {out : AgentState × FS}
    (h : runWorkflow gen fs mq st = .ok out) :
    ∃ stPre, out = assemble_and_create_node fs stPre ∧
      truthy (pyGet stPre.current_project_path) =
        (truthy (pyGet st.current_project_path) &&
          fs.dirs.contains (fstr (pyGet st.current_project_path))) := by
  simp only [runWorkflow, router_node] at h
  by_cases hr : truthy (pyGet st.current_project_path)
  · have hroute : route st = "load_existing_project" := by simp [route, hr]
    rw [hroute, if_pos rfl] at h
    simp only [runEditPath] at h
    split at h
    · simp at h
    case _ st3 h3 =>
      split at h
      · simp at h
      case _ st4 h4 =>
        split at h
        · simp at h
        case _ st5 h5 =>
          obtain ⟨t3, rfl⟩ := edit_html_node_ok h3
          obtain ⟨t4, rfl⟩ := edit_css_node_ok h4
          obtain ⟨t5, rfl⟩ := edit_js_node_ok h5
          cases h
          refine ⟨_, rfl, ?_⟩
          simpa [retrieve_context_node_cpp] using load_node_cpp_truthy fs st
  · have hroute : route st = "generate_html_from_scratch" := by simp [route, hr]
    rw [hroute] at h
    rw [if_neg (by decide)] at h
    simp only [runCreatePath] at h
    split at h
    · simp at h
    case _ st1 h1 =>
      split at h
      · simp at h
      case _ st2 h2 =>
        split at h
        · simp at h
        case _ st3 h3 =>
          obtain ⟨t1, rfl⟩ := generate_html_node_ok h1
          obtain ⟨t2, rfl⟩ := generate_css_node_ok h2
          obtain ⟨t3, rfl⟩ := generate_js_node_ok h3
          cases h
          refine ⟨_, rfl, ?_⟩
          simp [hr]

theorem assemble_lookup_html (fs : FS) (st : AgentState) :
    ((assemble_and_create_node fs st).2).files.lookup
        "generated_apps/current_project/index.html" =
      some (pyOr (pyGet st.generated_html) "<!-- HTML generation failed -->") := by
  unfold assemble_and_create_node
  simp only [writeFiles, final_code, List.foldl]
  rw [writeFile_lookup_ne _ _ _ _ (by decide)]
  rw [writeFile_lookup_ne _ _ _ _ (by decide)]
  exact writeFile_lookup_self _ _ _

theorem assemble_lookup_css (fs : FS) (st : AgentState) :
    ((assemble_and_create_node fs st).2).files.lookup
        "generated_apps/current_project/styles.css" =
      some (pyOr (pyGet st.generated_css) "/* CSS generation failed */") := by
  unfold assemble_and_create_node
  simp only [writeFiles, final_code, List.foldl]
  rw [writeFile_lookup_ne _ _ _ _ (by decide)]
  exact writeFile_lookup_self _ _ _

theorem assemble_lookup_js (fs : FS) (st : AgentState) :
    ((assemble_and_create_node fs st).2).files.lookup
        "generated_apps/current_project/app.js" =
      some (pyOr (pyGet st.generated_js) "// JavaScript generation failed") := by
  unfold assemble_and_create_node
  simp only [writeFiles, final_code, List.foldl]
  exact writeFile_lookup_self _ _ _

theorem pyOr_ne_empty (v : Option String) (d : String) (hd : d ≠ "") :
    (pyOr v d != "") = true := by
  cases v with
  | none => simp [pyOr, hd]
  | some s =>
    by_cases hs : s = "" <;> simp [pyOr, hs, hd]

/-- C1 (amended): at the router, a run transitions to the edit path exactly
when `active_project_path` is set and non-empty (Python truthy), regardless of
whether the referenced directory exists on disk — the conditional edge never
consults the filesystem (the filesystem argument is universally quantified
here and does not influence the branch taken); otherwise the run takes the
create path.  The original claim, that the edit path additionally requires the
directory to exist, is refuted by `c1_counterexample`. -/
theorem c1_router_truthiness_only (gen : Gen) (fs : FS) (mq : Option RetrQ)
    (st : AgentState) :
    (truthy (pyGet st.current_project_path) = true →
      runWorkflow gen fs mq st = runEditPath gen fs mq st) ∧
    (truthy (pyGet st.current_project_path) = false →
      runWorkflow gen fs mq st = runCreatePath gen fs st) := by
  constructor <;> intro hr <;> simp [runWorkflow, router_node, route, hr]

/-- C1 counterexample: with `active_project_path` set to a directory that does
not exist (the filesystem has no directories at all), the router still sends
the run to `load_existing_project`, i.e. the edit path — and the run really
executes the edit path, observable because `retrieved_context` gets written
(the create path never touches it).  The claim predicted the create path
(`generate_html_from_scratch`). -/
theorem c1_counterexample :
    route { messages := [{ role := Role.user, content := "edit it" }],
            thread_id := "s1",
            current_project_path := some (some "missing_dir") } =
      "load_existing_project" ∧
    (FS.mk [] []).dirs.contains "missing_dir" = false ∧
    (match runWorkflow (fun _ => Except.ok "x") { dirs := [], files := [] } none
        { messages := [{ role := Role.user, content := "edit it" }],
          thread_id := "s1",
          current_project_path := some (some "missing_dir") } with
     | .ok (st, _) => st.retrieved_context
     | .error _ => none) = some (some "") ∧
    ("load_existing_project" : String) ≠ "generate_html_from_scratch" := by
  decide

theorem c1_witness :
    truthy (pyGet (some (some "p") : Option (Option String))) = true ∧
    runWorkflow (fun _ => Except.ok "x") { dirs := [], files := [] } none
      { messages := [{ role := Role.user, content := "m" }], thread_id := "s",
        current_project_path := some (some "p") } =
      runEditPath (fun _ => Except.ok "x") { dirs := [], files := [] } none
        { messages := [{ role := Role.user, content := "m" }], thread_id := "s",
          current_project_path := some (some "p") } :=
  ⟨by decide, (c1_router_truthiness_only (fun _ => Except.ok "x")
    { dirs := [], files := [] } none
    { messages := [{ role := Role.user, content := "m" }], thread_id := "s",
      current_project_path := some (some "p") }).1 (by decide)⟩

/-- C2: assembly builds exactly the three named artifacts `index.html`,
`styles.css`, `app.js`, none of them with empty content, writes each of them
under the canonical project path with content `draft or placeholder`, and for
a draft that is `None` (or was never written, or is the empty string) the
fixed placeholder marker is written instead. -/
theorem c2_assembly_completeness (st : AgentState) (fs : FS) :
    (final_code st).map Prod.fst = ["index.html", "styles.css", "app.js"] ∧
    (final_code st).all (fun fc => fc.2 != "") = true ∧
    ((assemble_and_create_node fs st).2).files.lookup
        "generated_apps/current_project/index.html" =
      some (pyOr (pyGet st.generated_html) "<!-- HTML generation failed -->") ∧
    ((assemble_and_create_node fs st).2).files.lookup
        "generated_apps/current_project/styles.css" =
      some (pyOr (pyGet st.generated_css) "/* CSS generation failed */") ∧
    ((assemble_and_create_node fs st).2).files.lookup
        "generated_apps/current_project/app.js" =
      some (pyOr (pyGet st.generated_js) "// JavaScript generation failed") ∧
    ((assemble_and_create_node fs
        { st with generated_html := some none, generated_css := some none,
                  generated_js := some none }).2).files.lookup
        "generated_apps/current_project/index.html" =
      some "<!-- HTML generation failed -->" ∧
    ((assemble_and_create_node fs
        { st with generated_html := some none, generated_css := some none,
                  generated_js := some none }).2).files.lookup
        "generated_apps/current_project/styles.css" =
      some "/* CSS generation failed */" ∧
    ((assemble_and_create_node fs
        { st with generated_html := some none, generated_css := some none,
                  generated_js := some none }).2).files.lookup
        "generated_apps/current_project/app.js" =
      some "// JavaScript generation failed" ∧
    ((assemble_and_create_node fs
        { st with generated_html := some (some ""), generated_css := some (some ""),
                  generated_js := some (some "") }).2).files.lookup
        "generated_apps/current_project/index.html" =
      some "<!-- HTML generation failed -->" := by
  refine ⟨rfl, ?_, assemble_lookup_html fs st, assemble_lookup_css fs st,
    assemble_lookup_js fs st, ?_, ?_, ?_, ?_⟩
  · have h1 := pyOr_ne_empty (pyGet st.generated_html)
      "<!-- HTML generation failed -->" (by decide)
    have h2 := pyOr_ne_empty (pyGet st.generated_css)
      "/* CSS generation failed */" (by decide)
    have h3 := pyOr_ne_empty (pyGet st.generated_js)
      "// JavaScript generation failed" (by decide)
    simp [final_code, List.all_cons, h1, h2, h3]
  · rw [assemble_lookup_html]
    rfl
  · rw [assemble_lookup_css]
    rfl
  · rw [assemble_lookup_js]
    rfl
  · rw [assemble_lookup_html]
    rfl

/-- C3 (amended): the assistant turn appended by assembly is the edit-style
text exactly when `current_project_path` is still truthy when assembly runs,
which — because no other stage modifies the path — happens exactly when the
path was set before the run began AND the referenced directory existed.  On an
edit-path run whose project directory was missing, `load_existing_project`
resets the path, so assembly appends the create-style text, contrary to the
original claim (refuted by `c3_counterexample`). -/
theorem c3_response_style (gen : Gen) (fs : FS) (mq : Option RetrQ)
    (st st' : AgentState) (fs' : FS)
    (h : runWorkflow gen fs mq st = .ok (st', fs')) :
    st'.messages.getLast? =
      some { role := Role.assistant,
             content :=
               if truthy (pyGet st.current_project_path) &&
                   fs.dirs.contains (fstr (pyGet st.current_project_path)) then
                 "I have applied the updates to the project."
               else
                 "I've created a new project. You can see it in the preview." } := by
  obtain ⟨stPre, hout, htr⟩ := runWorkflow_ok_inv h
  have h1 : st' = (assemble_and_create_node fs stPre).1 := congrArg Prod.fst hout
  rw [h1]
  have h2 : (assemble_and_create_node fs stPre).1.messages.getLast? =
      some { role := Role.assistant,
             content :=
               if truthy (pyGet stPre.current_project_path) then
                 "I have applied the updates to the project."
               else
                 "I've created a new project. You can see it in the preview." } := by
    simp [assemble_and_create_node, List.getLast?_concat]
  rw [h2, htr]

/-- C3 counterexample: a session whose checkpoint has `active_project_path`
set (so the path was set before the run began) but whose directory is gone:
the run recovers, yet assembly appends the create-style text, not the
edit-style text the claim requires. -/
theorem c3_counterexample :
    (match process_message (fun _ => Except.ok "X") { dirs := [], files := [] }
        none
        (some { messages := [{ role := Role.user, content := "hi" },
                             { role := Role.assistant, content := "done" }],
                thread_id := "default",
                current_project_path := some (some "gone"),
                generated_html := some (some "<p>"),
                generated_css := some (some "b{}"),
                generated_js := some (some "x();"),
                project_name := some (some "gone"),
                retrieved_context := some (some "") })
        "make it blue" "default" with
     | .ok (st, _) => (st.messages.getLast?).map Message.content
     | .error _ => none) =
      some "I've created a new project. You can see it in the preview." ∧
    ("I've created a new project. You can see it in the preview." : String) ≠
      "I have applied the updates to the project." := by
  decide

theorem c3_witness :
    ({ messages := [{ role := Role.user, content := "hello" },
                    { role := Role.assistant,
                      content := "I've created a new project. You can see it in the preview." }],
       thread_id := "s",
       current_project_path := some (some "generated_apps/current_project"),
       generated_html := some (some ""), generated_css := some (some ""),
       generated_js := some (some ""),
       project_name := some (some "current_project"),
       retrieved_context := none } : AgentState).messages.getLast? =
      some { role := Role.assistant,
             content := "I've created a new project. You can see it in the preview." } :=
  c3_response_style (fun _ => Except.ok "") { dirs := [], files := [] } none
    { messages := [{ role := Role.user, content := "hello" }], thread_id := "s" }
    { messages := [{ role := Role.user, content := "hello" },
                   { role := Role.assistant,
                     content := "I've created a new project. You can see it in the preview." }],
      thread_id := "s",
      current_project_path := some (some "generated_apps/current_project"),
      generated_html := some (some ""), generated_css := some (some ""),
      generated_js := some (some ""),
      project_name := some (some "current_project"),
      retrieved_context := none }
    { dirs := ["generated_apps/current_project"],
      files := [("generated_apps/current_project/app.js", "// JavaScript generation failed"),
                ("generated_apps/current_project/styles.css", "/* CSS generation failed */"),
                ("generated_apps/current_project/index.html", "<!-- HTML generation failed -->")] }
    (by rfl)

/-- Does the character list begin with three consecutive backticks? -/
def startsTriple : List Char → Bool
  | c1 :: c2 :: c3 :: _ => c1 == '`' && c2 == '`' && c3 == '`'
  | _ => false

/-- Does the character list contain three consecutive backticks (a Markdown
code fence) anywhere? -/
def hasTriple : List Char → Bool
  | [] => false
  | c :: rest => startsTriple (c :: rest) || hasTriple rest

/-- Length of the leading run of backticks. -/
def leadTicks (s : List Char) : Nat :=
  (s.takeWhile (fun c => c == '`')).length

theorem startsTriple_append (s u : List Char) (h : startsTriple s = true) :
    startsTriple (s ++ u) = true := by
  match s with
  | a :: b :: c :: rest => simpa [startsTriple] using h
  | [] => simp [startsTriple] at h
  | [a] => simp [startsTriple] at h
  | [a, b] => simp [startsTriple] at h

theorem hasTriple_append_left (s u : List Char) (h : hasTriple s = true) :
    hasTriple (s ++ u) = true := by
  induction s with
  | nil => simp [hasTriple] at h
  | cons c s' ih =>
    simp only [hasTriple, Bool.or_eq_true] at h
    show hasTriple (c :: (s' ++ u)) = true
    simp only [hasTriple, Bool.or_eq_true]
    rcases h with h | h
    · exact Or.inl (startsTriple_append (c :: s') u h)
    · exact Or.inr (ih h)

theorem hasTriple_append_right (u s : List Char) (h : hasTriple s = true) :
    hasTriple (u ++ s) = true := by
  induction u with
  | nil => simpa using h
  | cons c u' ih =>
    show hasTriple (c :: (u' ++ s)) = true
    simp only [hasTriple, Bool.or_eq_true]
    exact Or.inr ih

theorem startsTriple_false_of_head (c : Char) (r : List Char)
    (hc : (c == '`') = false) : startsTriple (c :: r) = false := by
  match r with
  | [] => rfl
  | [d] => rfl
  | d :: e :: r' => simp [startsTriple, hc]

theorem leadTicks_cons_tick (r : List Char) :
    leadTicks ('`' :: r) = leadTicks r + 1 := by
  simp [leadTicks, List.takeWhile_cons]

theorem leadTicks_cons_of (c : Char) (r : List Char) (hc : (c == '`') = false) :
    leadTicks (c :: r) = 0 := by
  simp [leadTicks, List.takeWhile_cons, hc]

theorem startsTriple_false_of_leadTicks (c : Char) (r : List Char)
    (h : leadTicks r ≤ 1) : startsTriple (c :: r) = false := by
  match r with
  | [] => rfl
  | [d] => rfl
  | d :: e :: r' =>
    by_cases hd : (d == '`') = true
    · by_cases he : (e == '`') = true
      · exfalso
        have hd' : d = '`' := by simpa using hd
        have he' : e = '`' := by simpa using he
        subst hd'
        subst he'
        rw [leadTicks_cons_tick, leadTicks_cons_tick] at h
        omega
      · simp [startsTriple, Bool.eq_false_iff.mpr he]
    · simp [startsTriple, Bool.eq_false_iff.mpr hd]

theorem replaceAux_tbt_clean :
    ∀ (fuel : Nat) (s : List Char), s.length ≤ fuel →
      hasTriple (replaceAux ['`', '`', '`'] [] fuel s) = false ∧
      leadTicks (replaceAux ['`', '`', '`'] [] fuel s) ≤ leadTicks s := by
  intro fuel
  induction fuel with
  | zero =>
    intro s hs
    have hnil : s = [] := List.eq_nil_of_length_eq_zero (Nat.le_zero.mp hs)
    subst hnil
    exact ⟨rfl, le_rfl⟩
  | succ fuel ih =>
    intro s hs
    cases s with
    | nil => exact ⟨rfl, le_rfl⟩
    | cons c cs =>
      by_cases hpre : isPrefixChars ['`', '`', '`'] (c :: cs) = true
      · match cs with
        | [] => simp [isPrefixChars] at hpre
        | [d] => simp [isPrefixChars] at hpre
        | d :: e :: cs2 =>
          have hc : c = '`' := by
            have := hpre
            simp [isPrefixChars] at this
            exact this.1.symm
          have hd : d = '`' := by
            have := hpre
            simp [isPrefixChars] at this
            exact this.2.1.symm
          have he : e = '`' := by
            have := hpre
            simp [isPrefixChars] at this
            exact this.2.2.symm
          subst hc
          subst hd
          subst he
          have hstep : replaceAux ['`', '`', '`'] [] (fuel + 1)
              ('`' :: '`' :: '`' :: cs2) = replaceAux ['`', '`', '`'] [] fuel cs2 := by
            simp [replaceAux, hpre]
          have hlen : cs2.length ≤ fuel := by
            simp only [List.length_cons] at hs
            omega
          obtain ⟨ih1, ih2⟩ := ih cs2 hlen
          rw [hstep]
          refine ⟨ih1, ?_⟩
          rw [leadTicks_cons_tick, leadTicks_cons_tick, leadTicks_cons_tick]
          omega
      · have hstep : replaceAux ['`', '`', '`'] [] (fuel + 1) (c :: cs) =
            c :: replaceAux ['`', '`', '`'] [] fuel cs := by
          simp [replaceAux, hpre]
        have hlen : cs.length ≤ fuel := by
          simp only [List.length_cons] at hs
          omega
        obtain ⟨ih1, ih2⟩ := ih cs hlen
        rw [hstep]
        constructor
        · show (startsTriple (c :: replaceAux ['`', '`', '`'] [] fuel cs) ||
            hasTriple (replaceAux ['`', '`', '`'] [] fuel cs)) = false
          rw [ih1, Bool.or_false]
          by_cases hc : (c == '`') = true
          · have hc' : c = '`' := by simpa using hc
            subst hc'
            have hcs : leadTicks cs ≤ 1 := by
              match cs with
              | [] => simp [leadTicks]
              | [d] =>
                by_cases hd : (d == '`') = true
                · simp [leadTicks, List.takeWhile_cons, hd]
                · have hd' : (d == '`') = false := Bool.eq_false_iff.mpr hd
                  simp [leadTicks_cons_of d [] hd']
              | d :: e :: cs2 =>
                by_cases hd : (d == '`') = true
                · by_cases he : (e == '`') = true
                  · exfalso
                    apply hpre
                    have hd' : d = '`' := by simpa using hd
                    have he' : e = '`' := by simpa using he
                    subst hd'
                    subst he'
                    simp [isPrefixChars]
                  · have hd' : d = '`' := by simpa using hd
                    subst hd'
                    have he' : (e == '`') = false := Bool.eq_false_iff.mpr he
                    rw [leadTicks_cons_tick, leadTicks_cons_of e cs2 he']
                · have hd' : (d == '`') = false := Bool.eq_false_iff.mpr hd
                  simp [leadTicks_cons_of d (e :: cs2) hd']
            exact startsTriple_false_of_leadTicks '`' _ (le_trans ih2 hcs)
          · exact startsTriple_false_of_head c _ (Bool.eq_false_iff.mpr hc)
        · by_cases hc : (c == '`') = true
          · have hc' : c = '`' := by simpa using hc
            subst hc'
            rw [leadTicks_cons_tick, leadTicks_cons_tick]
            omega
          · have hc' : (c == '`') = false := Bool.eq_false_iff.mpr hc
            rw [leadTicks_cons_of c _ hc', leadTicks_cons_of c cs hc']

theorem hasTriple_stripChars (l : List Char) (h : hasTriple l = false) :
    hasTriple (stripChars l) = false := by
  by_contra hcon
  rw [Bool.not_eq_false] at hcon
  have hsplit : (l.dropWhile isPySpace).reverse.takeWhile isPySpace ++
      (l.dropWhile isPySpace).reverse.dropWhile isPySpace =
      (l.dropWhile isPySpace).reverse :=
    List.takeWhile_append_dropWhile isPySpace (l.dropWhile isPySpace).reverse
  have hl1 : l.dropWhile isPySpace =
      stripChars l ++ ((l.dropWhile isPySpace).reverse.takeWhile isPySpace).reverse := by
    conv_lhs => rw [← List.reverse_reverse (l.dropWhile isPySpace), ← hsplit]
    rw [List.reverse_append]
    rfl
  have h2 : hasTriple (l.dropWhile isPySpace) = true := by
    rw [hl1]
    exact hasTriple_append_left _ _ hcon
  have hl : l.takeWhile isPySpace ++ l.dropWhile isPySpace = l :=
    List.takeWhile_append_dropWhile isPySpace l
  have h3 : hasTriple l = true := by
    rw [← hl]
    exact hasTriple_append_right _ _ h2
  rw [h] at h3
  exact Bool.false_ne_true h3

theorem cleanGenerated_no_fence (code : String) :
    hasTriple (cleanGenerated code).data = false := by
  have h := replaceAux_tbt_clean
    ((pyReplace (pyReplace (pyReplace (pyStrip code) "```html" "") "```css" "")
      "```javascript" "").data.length)
    ((pyReplace (pyReplace (pyReplace (pyStrip code) "```html" "") "```css" "")
      "```javascript" "").data) le_rfl
  exact hasTriple_stripChars _ h.1

/-- C4 (amended): each generation/edit stage stores into its draft field the
Generation Client's text passed through `cleanGenerated`, i.e. with **every**
occurrence of the substrings three-backticks-`html`, three-backticks-`css`,
three-backticks-`javascript` and then every remaining triple-backtick removed
(in that order), and surrounding whitespace stripped — not only leading and
trailing fences: interior triple-backtick sequences are removed as well, so a
stored draft never contains a triple-backtick anywhere (last conjunct).  The
original claim, that interior fences are preserved, is refuted by
`c4_counterexample`. -/
theorem c4_draft_cleanup (gen : Gen) (st : AgentState) (t : String) :
    (gen (generate_html_prompt (lastMessageContent st)) = .ok t →
      generate_html_from_scratch_node gen st =
        .ok { st with generated_html := some (some (cleanGenerated t)) }) ∧
    (gen (generate_css_prompt (lastMessageContent st) (getStr st.generated_html)) = .ok t →
      generate_css_from_scratch_node gen st =
        .ok { st with generated_css := some (some (cleanGenerated t)) }) ∧
    (gen (generate_js_prompt (lastMessageContent st) (getStr st.generated_html)
        (getStr st.generated_css)) = .ok t →
      generate_js_from_scratch_node gen st =
        .ok { st with generated_js := some (some (cleanGenerated t)) }) ∧
    (gen (edit_html_prompt (lastMessageContent st) (getStr st.generated_html)) = .ok t →
      edit_html_node gen st =
        .ok { st with generated_html := some (some (cleanGenerated t)) }) ∧
    (gen (edit_css_prompt (lastMessageContent st) (getStr st.retrieved_context)
        (getStr st.generated_html) (getStr st.generated_css)) = .ok t →
      edit_css_node gen st =
        .ok { st with generated_css := some (some (cleanGenerated t)) }) ∧
    (gen (edit_js_prompt (lastMessageContent st) (getStr st.retrieved_context)
        (getStr st.generated_html) (getStr st.generated_css)
        (getStr st.generated_js)) = .ok t →
      edit_js_node gen st =
        .ok { st with generated_js := some (some (cleanGenerated t)) }) ∧
    (∀ code : String, hasTriple (cleanGenerated code).data = false) :=
  ⟨generate_html_node_eq gen st t, generate_css_node_eq gen st t,
   generate_js_node_eq gen st t, edit_html_node_eq gen st t,
   edit_css_node_eq gen st t, edit_js_node_eq gen st t,
   fun code => cleanGenerated_no_fence code⟩

/-- C4 counterexample: the Generation Client returns `a ``` b`, which has no
leading or trailing fence, so under the original claim the draft would be the
unchanged text with the interior triple-backtick preserved; the code instead
stores `a  b` with the interior fence removed. -/
theorem c4_counterexample :
    (edit_html_node (fun _ => Except.ok "a ``` b")
        { messages := [{ role := Role.user, content := "m" }],
          thread_id := "s" }).map (fun st => st.generated_html) =
      Except.ok (some (some "a  b")) ∧
    ("a  b" : String) ≠ "a ``` b" :=
  ⟨by rfl, by decide⟩

theorem c4_witness :
    generate_html_from_scratch_node (fun _ => Except.ok "x")
        { messages := [{ role := Role.user, content := "m" }], thread_id := "s" } =
      Except.ok { messages := [{ role := Role.user, content := "m" }],
                  thread_id := "s", generated_html := some (some "x") } ∧
    edit_js_node (fun _ => Except.ok "x")
        { messages := [{ role := Role.user, content := "m" }], thread_id := "s" } =
      Except.ok { messages := [{ role := Role.user, content := "m" }],
                  thread_id := "s", generated_js := some (some "x") } :=
  ⟨(c4_draft_cleanup (fun _ => Except.ok "x")
      { messages := [{ role := Role.user, content := "m" }], thread_id := "s" }
      "x").1 rfl,
   (c4_draft_cleanup (fun _ => Except.ok "x")
      { messages := [{ role := Role.user, content := "m" }], thread_id := "s" }
      "x").2.2.2.2.2.1 rfl⟩

theorem runEditPath_total (gen : Gen) (fs : FS) (mq : Option RetrQ)
    (st : AgentState) (hgen : ∀ q, ∃ t, gen q = Except.ok t) :
    ∃ st5 : AgentState,
      runEditPath gen fs mq st = .ok (assemble_and_create_node fs st5) ∧
      st5.current_project_path =
        (retrieve_context_node mq (load_existing_project_node fs st)).current_project_path := by
  obtain ⟨t3, h3⟩ := hgen (edit_html_prompt
    (lastMessageContent (retrieve_context_node mq (load_existing_project_node fs st)))
    (getStr (retrieve_context_node mq (load_existing_project_node fs st)).generated_html))
  have e3 := edit_html_node_eq gen
    (retrieve_context_node mq (load_existing_project_node fs st)) t3 h3
  obtain ⟨t4, h4⟩ := hgen _
  have e4 := edit_css_node_eq gen
    { retrieve_context_node mq (load_existing_project_node fs st) with
      generated_html := some (some (cleanGenerated t3)) } t4 h4
  obtain ⟨t5, h5⟩ := hgen _
  have e5 := edit_js_node_eq gen
    { retrieve_context_node mq (load_existing_project_node fs st) with
      generated_html := some (some (cleanGenerated t3)),
      generated_css := some (some (cleanGenerated t4)) } t5 h5
  refine ⟨{ retrieve_context_node mq (load_existing_project_node fs st) with
      generated_html := some (some (cleanGenerated t3)),
      generated_css := some (some (cleanGenerated t4)),
      generated_js := some (some (cleanGenerated t5)) }, ?_, rfl⟩
  simp only [runEditPath, e3, e4, e5]

theorem runEditPath_empty_gen (fs : FS) (mq : Option RetrQ) (st : AgentState) :
    ∃ st5 : AgentState,
      runEditPath (fun _ => Except.ok "") fs mq st =
        .ok (assemble_and_create_node fs st5) ∧
      st5.current_project_path =
        (retrieve_context_node mq (load_existing_project_node fs st)).current_project_path ∧
      st5.generated_html = some (some "") ∧
      st5.generated_css = some (some "") ∧
      st5.generated_js = some (some "") := by
  have hclean : cleanGenerated "" = "" := rfl
  have e3 := edit_html_node_eq (fun _ => Except.ok "")
    (retrieve_context_node mq (load_existing_project_node fs st)) "" rfl
  rw [hclean] at e3
  have e4 := edit_css_node_eq (fun _ => Except.ok "")
    { retrieve_context_node mq (load_existing_project_node fs st) with
      generated_html := some (some "") } "" rfl
  rw [hclean] at e4
  have e5 := edit_js_node_eq (fun _ => Except.ok "")
    { retrieve_context_node mq (load_existing_project_node fs st) with
      generated_html := some (some ""), generated_css := some (some "") } "" rfl
  rw [hclean] at e5
  refine ⟨{ retrieve_context_node mq (load_existing_project_node fs st) with
      generated_html := some (some ""), generated_css := some (some ""),
      generated_js := some (some "") }, ?_, rfl, rfl, rfl, rfl⟩
  simp only [runEditPath, e3, e4, e5]

/-- C5 (amended): on the edit path with `active_project_path` set to a
directory that does not exist, `load_existing_project` resets the path and all
three drafts to `None` and the run still proceeds through the edit stages to
assembly (it neither aborts nor re-routes to the create path); assembly then
writes the three files — substituting the placeholder for exactly those drafts
that are `None` or empty after the edit stages, e.g. all three placeholders
when every generation result cleans to the empty string — and the final state
carries the canonical project path.  The edit stages still invoke generation,
so when generation returns non-empty text the written files hold that text
rather than placeholders, refuting the original claim's unconditional
"three placeholder files" (see `c5_counterexample`). -/
theorem c5_missing_dir_recovery (fs : FS) (mq : Option RetrQ) (st : AgentState)
    (p : String) (hp : pyGet st.current_project_path = some p) (hp0 : p ≠ "")
    (hd : p ∉ fs.dirs) :
    load_existing_project_node fs st =
      { st with current_project_path := some none, generated_html := some none,
                generated_css := some none, generated_js := some none } ∧
    (∀ gen : Gen, (∀ q, ∃ t, gen q = Except.ok t) →
      ∃ out : AgentState × FS, runWorkflow gen fs mq st = .ok out ∧
        pyGet out.1.current_project_path = some "generated_apps/current_project") ∧
    (∃ out : AgentState × FS,
      runWorkflow (fun _ => Except.ok "") fs mq st = .ok out ∧
      pyGet out.1.current_project_path = some "generated_apps/current_project" ∧
      out.2.files.lookup "generated_apps/current_project/index.html" =
        some "<!-- HTML generation failed -->" ∧
      out.2.files.lookup "generated_apps/current_project/styles.css" =
        some "/* CSS generation failed */" ∧
      out.2.files.lookup "generated_apps/current_project/app.js" =
        some "// JavaScript generation failed") := by
  have htr : truthy (pyGet st.current_project_path) = true := by
    rw [hp]
    simp [truthy, hp0]
  have hrw : ∀ gen : Gen, runWorkflow gen fs mq st = runEditPath gen fs mq st := by
    intro gen
    simp [runWorkflow, router_node, route, htr]
  refine ⟨?_, ?_, ?_⟩
  · simp [load_existing_project_node, hp, hp0, hd]
  · intro gen hgen
    obtain ⟨st5, hrun, -⟩ := runEditPath_total gen fs mq st hgen
    exact ⟨assemble_and_create_node fs st5, by rw [hrw gen, hrun], rfl⟩
  · obtain ⟨st5, hrun, -, hh, hc, hj⟩ := runEditPath_empty_gen fs mq st
    refine ⟨assemble_and_create_node fs st5, by rw [hrw _, hrun], rfl, ?_, ?_, ?_⟩
    · rw [assemble_lookup_html fs st5, hh]
      rfl
    · rw [assemble_lookup_css fs st5, hc]
      rfl
    · rw [assemble_lookup_js fs st5, hj]
      rfl

/-- C5 counterexample: on a recovery run (path set to a missing directory)
whose generation returns the non-empty text `Y`, the assembled `index.html`
holds `Y`, not the placeholder the claim promises. -/
theorem c5_counterexample :
    (match runWorkflow (fun _ => Except.ok "Y") { dirs := [], files := [] } none
        { messages := [{ role := Role.user, content := "tweak" }],
          thread_id := "s2",
          current_project_path := some (some "lost2") } with
     | .ok (_, fsOut) =>
       fsOut.files.lookup "generated_apps/current_project/index.html"
     | .error _ => none) = some "Y" ∧
    ("Y" : String) ≠ "<!-- HTML generation failed -->" := by
  decide

theorem c5_witness :
    load_existing_project_node { dirs := [], files := [] }
        { messages := [{ role := Role.user, content := "fix" }], thread_id := "s",
          current_project_path := some (some "lost") } =
      { messages := [{ role := Role.user, content := "fix" }], thread_id := "s",
        current_project_path := some none, generated_html := some none,
        generated_css := some none, generated_js := some none } :=
  (c5_missing_dir_recovery { dirs := [], files := [] } none
    { messages := [{ role := Role.user, content := "fix" }], thread_id := "s",
      current_project_path := some (some "lost") } "lost" rfl (by decide)
    (by decide)).1

/-- C6: when the client has no loaded model (initialization never succeeded),
`generate` returns the classified `modelNotLoaded` error for every attempt and
for every possible provider behaviour — the provider outcome argument is
irrelevant, i.e. the provider is never consulted; and this holds in particular
for a client whose initialization failed on a missing or empty API key.  When
a model is loaded, a provider failure is surfaced as the generic
`generationFailed` error wrapping the underlying cause. -/
theorem c6_generate_error_classification :
    (∀ r : Except String String,
      LLMClient.generate none r = .error .modelNotLoaded) ∧
    (∀ (m : GeminiModel) (e : String),
      LLMClient.generate (some m) (.error e) =
        .error (.generationFailed ("Failed to generate response: " ++ e))) ∧
    (∀ (m : GeminiModel) (t : String),
      LLMClient.generate (some m) (.ok t) = .ok (pyStrip t)) ∧
    (∀ (ctor : Except String GeminiModel) (r : Except String String),
      LLMClient.generate (LLMClient.initializeModel none ctor) r =
        .error .modelNotLoaded) ∧
    (∀ (ctor : Except String GeminiModel) (r : Except String String),
      LLMClient.generate (LLMClient.initializeModel (some "") ctor) r =
        .error .modelNotLoaded) :=
  ⟨fun _ => rfl, fun _ _ => rfl, fun _ _ => rfl, fun _ _ => rfl, fun _ _ => rfl⟩

/-- C7: a retrieval failure never fails a run — `retrieve_similar` returns the
empty list whenever the underlying query raises (and when the documents
row-list is empty/falsy), `retrieve_context` stores the empty string when the
embedding manager is unavailable, and on success it stores exactly the first
row of returned snippets joined with newline separators, the query being made
with `n_results = 3`.  When the query succeeds the returned snippets are
passed through verbatim. -/
theorem c7_retrieval_never_fails :
    (∀ e : String, EmbeddingManager.retrieve_similar (.error e) = []) ∧
    (EmbeddingManager.retrieve_similar (.ok []) = []) ∧
    (∀ (ds : List String) (rest : List (List String)),
      EmbeddingManager.retrieve_similar (.ok (ds :: rest)) = ds) ∧
    (∀ st : AgentState,
      (retrieve_context_node none st).retrieved_context = some (some "")) ∧
    (∀ (q : RetrQ) (st : AgentState),
      (retrieve_context_node (some q) st).retrieved_context =
        some (some (String.intercalate "\n"
          (EmbeddingManager.retrieve_similar (q (lastMessageContent st) 3))))) :=
  ⟨fun _ => rfl, rfl, fun _ _ => rfl, fun _ => rfl, fun _ _ => rfl⟩

/-- C8: `clear_session_state` never raises: it is a no-op when the
checkpointer is not initialized, a caught-and-logged no-op when the SQLite
operations fail, it deletes the session's rows otherwise, deleting twice in a
row is a no-op the second time, and for every combination of circumstances the
call returns normally (never a propagated error). -/
theorem c8_clear_session_state_total :
    (∀ (sf : Bool) (db : List (String × AgentState)) (sid : String),
      clear_session_state false sf db sid = .ok db) ∧
    (∀ (db : List (String × AgentState)) (sid : String),
      clear_session_state true true db sid = .ok db) ∧
    (∀ (db : List (String × AgentState)) (sid : String),
      clear_session_state true false db sid = .ok (deleteThread db sid)) ∧
    (∀ (db : List (String × AgentState)) (sid : String),
      clear_session_state true false (deleteThread db sid) sid =
        .ok (deleteThread db sid)) ∧
    (∀ (mi sf : Bool) (db : List (String × AgentState)) (sid : String),
      ∃ db', clear_session_state mi sf db sid = .ok db') := by
  refine ⟨fun _ _ _ => rfl, fun _ _ => rfl, fun _ _ => rfl, ?_, ?_⟩
  · intro db sid
    show Except.ok (deleteThread (deleteThread db sid) sid) =
      Except.ok (deleteThread db sid)
    simp [deleteThread, List.filter_filter]
  · intro mi sf db sid
    cases mi with
    | false => exact ⟨db, rfl⟩
    | true =>
      cases sf with
      | true => exact ⟨db, rfl⟩
      | false => exact ⟨deleteThread db sid, rfl⟩

/-- C9: building the stage graph is idempotent — when a graph handle is
already present `build_graph` leaves it unchanged, building twice equals
building once for any starting handle, and from a fresh handle it produces
the fixed compiled workflow. -/
theorem c9_build_graph_idempotent :
    (∀ g : CompiledGraph, build_graph (some g) = some g) ∧
    (∀ x : Option CompiledGraph, build_graph (build_graph x) = build_graph x) ∧
    build_graph none = some compiledWorkflow := by
  refine ⟨fun g => rfl, fun x => ?_, rfl⟩
  cases x <;> rfl

/-- C10: every run that completes assembly — for any session identifier,
checkpoint, message, filesystem, collaborators, and regardless of path taken —
leaves `active_project_path` at the single canonical project location
`generated_apps/current_project` and `project_name` at the fixed name
`current_project`. -/
theorem c10_canonical_path_invariant (gen : Gen) (fs : FS) (mq : Option RetrQ)
    (checkpoint : Option AgentState) (message session_id : String)
    (st' : AgentState) (fs' : FS)
    (h : process_message gen fs mq checkpoint message session_id = .ok (st', fs')) :
    pyGet st'.current_project_path = some "generated_apps/current_project" ∧
    pyGet st'.project_name = some "current_project" := by
  unfold process_message at h
  obtain ⟨stPre, hout, -⟩ := runWorkflow_ok_inv h
  have h1 : st' = (assemble_and_create_node fs stPre).1 := congrArg Prod.fst hout
  rw [h1]
  exact ⟨rfl, rfl⟩

theorem c10_witness :
    pyGet (some (some "generated_apps/current_project") : Option (Option String)) =
      some "generated_apps/current_project" ∧
    pyGet (some (some "current_project") : Option (Option String)) =
      some "current_project" :=
  c10_canonical_path_invariant (fun _ => Except.ok "") { dirs := [], files := [] }
    none none "hello" "s1"
    { messages := [{ role := Role.user, content := "hello" },
                   { role := Role.assistant,
                     content := "I've created a new project. You can see it in the preview." }],
      thread_id := "s1",
      current_project_path := some (some "generated_apps/current_project"),
      generated_html := some (some ""), generated_css := some (some ""),
      generated_js := some (some ""),
      project_name := some (some "current_project"),
      retrieved_context := none }
    { dirs := ["generated_apps/current_project"],
      files := [("generated_apps/current_project/app.js", "// JavaScript generation failed"),
                ("generated_apps/current_project/styles.css", "/* CSS generation failed */"),
                ("generated_apps/current_project/index.html", "<!-- HTML generation failed -->")] }
    (by rfl)
